import Mathlib

/-!
Shallow embedding of the AI Shorts Automation backend (`main.py`, `schemas.py`).

The document store is modelled as in-memory lists of records; the store
handle `db` of `main.py` is an `Option DB` (it is `none` when no database
connection was established at startup).  Each FastAPI endpoint becomes a
function from its request data and the store state to an
`Except (status × detail)` response paired with the resulting store state.
-/

set_option autoImplicit false

namespace ShortsBackend

/-- Python `x or default` on an optional string: both `None` and the empty
string are falsy, so they yield the default. -/
def pyOr (o : Option String) (d : String) : String :=
  match o with
  | none => d
  | some s => if s = "" then d else s

/-- Python `platform.title()` as applied in `connect_account`: the platform
names are single lowercase words, for which `title()` uppercases the first
character. -/
def pyTitle (s : String) : String :=
  match s.toList with
  | [] => ""
  | c :: rest => String.mk (c.toUpper :: rest)

/-- Python `str.lower()` on the ASCII strings handled here (also the
lowercase-hex normalisation `str(ObjectId(s))` applies to a parsed id). -/
def pyLower (s : String) : String :=
  String.mk (s.toList.map Char.toLower)

/-- A hexadecimal digit, as accepted by `bson.ObjectId`. -/
def isHexChar (c : Char) : Bool :=
  c.isDigit || (('a' ≤ c) && (c ≤ 'f')) || (('A' ≤ c) && (c ≤ 'F'))

/-- `bson.ObjectId(s)` succeeds on a string exactly when it is a 24-character
hexadecimal string; otherwise it raises `InvalidId`. -/
def isValidObjectId (s : String) : Bool :=
  s.length == 24 && s.toList.all isHexChar

/-- The message of the `bson.errors.InvalidId` exception raised by
`ObjectId(job_id)` on a malformed identifier (surfaced via `str(e)`). -/
def invalidObjectIdMsg (s : String) : String :=
  s ++ " is not a valid ObjectId, it must be a 12-byte input or a 24-character hex string"

/-- `schemas.VideoJob`: a stored video job document. -/
structure VideoJob where
  title : Option String
  subreddit : Option String
  reddit_post_url : Option String
  keyword : Option String
  voice : String
  aspect_ratio : String
  include_captions : Bool
  include_broll : Bool
  autopost_youtube : Bool
  autopost_tiktok : Bool
  autopost_instagram : Bool
  status : String
  error : Option String
  result_video_url : Option String
  platforms_posted : List String
deriving DecidableEq

/-- A document of the `account` collection as written by `connect_account`:
the upsert sets exactly `platform`, `account_name` and `connected`, and the
store assigns `_id` (here `oid`). -/
structure AccountDoc where
  oid : String
  platform : String
  account_name : String
  connected : Bool
deriving DecidableEq

/-- The two collections of the document store.  Job documents are keyed by
their `_id` (the canonical lowercase 24-hex `ObjectId` string). -/
structure DB where
  videojob : List (String × VideoJob)
  account : List AccountDoc
deriving DecidableEq

def emptyDB : DB := ⟨[], []⟩

/-- `main.CreateJobRequest` (pydantic request model). -/
structure CreateJobRequest where
  title : Option String
  subreddit : Option String
  reddit_post_url : Option String
  keyword : Option String
  voice : Option String
  aspect_ratio : Option String
  include_captions : Option Bool
  include_broll : Option Bool
  autopost_youtube : Option Bool
  autopost_tiktok : Option Bool
  autopost_instagram : Option Bool
deriving DecidableEq

/-- The request produced by `POST /jobs` with an empty JSON body: every
field takes its pydantic default (`None` for the strings, `True` for the
caption/b-roll switches, `False` for the autopost flags). -/
def emptyCreateJobRequest : CreateJobRequest :=
  ⟨none, none, none, none, none, none, some true, some true, some false, some false, some false⟩

/-- `main.ConnectAccountRequest` (pydantic request model). -/
structure ConnectAccountRequest where
  platform : String
  account_name : Option String
deriving DecidableEq

/-- A Python exception escaping an endpoint body: either a deliberately
raised `HTTPException` or any other exception, carrying its `str(e)`. -/
inductive Exc where
  | http (status : Nat) (detail : String)
  | other (msg : String)
deriving DecidableEq

/-- The HTTP response an exception turns into: an `HTTPException` keeps its
status and detail; any other exception becomes a 500 whose detail is its
string form. -/
def excToResp : Exc → Nat × String
  | Exc.http st dt => (st, dt)
  | Exc.other m => (500, m)

/-- The `try/except` boundary of the endpoints: `except HTTPException: raise`
re-raises, `except Exception as e: raise HTTPException(500, str(e))`. -/
def handlerBoundary {α : Type} : Except Exc α → Except (Nat × String) α
  | Except.ok a => Except.ok a
  | Except.error e => Except.error (excToResp e)

/-- Modelled from the spec: `database.py` (the Document Store Gateway) is not
among the sources.  Per spec §4.1, `query(collection, limit)` returns up to
`limit` records of the collection, here `videojob`. -/
def get_documents_videojob (s : DB) (limit : Nat) : List (String × VideoJob) :=
  s.videojob.take limit

/-- Modelled from the spec: the gateway query on the `account` collection,
returning up to `limit` records. -/
def get_documents_account (s : DB) (limit : Nat) : List AccountDoc :=
  s.account.take limit

/-- Modelled from the spec: `insert(collection, record) → identifier`
(spec §4.1).  The store assigns the fresh identifier `newId` and appends the
record to the `videojob` collection. -/
def create_document_videojob (s : DB) (job : VideoJob) (newId : String) : String × DB :=
  (newId, { s with videojob := s.videojob ++ [(newId, job)] })

/-- `find_one({"_id": oid})` on the `videojob` collection: the first record
with the given key. -/
def findJob : List (String × VideoJob) → String → Option VideoJob
  | [], _ => none
  | kv :: rest, k => if kv.1 = k then some kv.2 else findJob rest k

/-- `update_one({"_id": oid}, {"$set": ...})`: update the first record with
the given key, leaving everything else unchanged. -/
def updateFirstJob : List (String × VideoJob) → String → (VideoJob → VideoJob) → List (String × VideoJob)
  | [], _, _ => []
  | kv :: rest, k, f => if kv.1 = k then (kv.1, f kv.2) :: rest else kv :: updateFirstJob rest k f

/-- `find_one({"platform": platform})` on the `account` collection. -/
def findAccount : List AccountDoc → String → Option AccountDoc
  | [], _ => none
  | a :: rest, p => if a.platform = p then some a else findAccount rest p

/-- `update_one({"platform": platform}, {"$set": {...}}, upsert=True)`:
replace the fields of the first record with the given platform, or append a
fresh document (with store-assigned id `freshId`) when none matches. -/
def upsertAccount : List AccountDoc → String → String → String → List AccountDoc
  | [], platform, name, freshId => [⟨freshId, platform, name, true⟩]
  | a :: rest, platform, name, freshId =>
    if a.platform = platform then ⟨a.oid, platform, name, true⟩ :: rest
    else a :: upsertAccount rest platform name freshId

/-- The `voice` values admitted by the `Literal` type of `VideoJob.voice`. -/
def voices : List String := ["female-soft", "female-energetic", "male-calm", "male-dramatic"]

/-- The values admitted by the `Literal` type of `VideoJob.aspect_ratio`. -/
def aspectRatios : List String := ["9:16", "1:1", "16:9"]

/-- pydantic `HttpUrl` validation, abstracted to the scheme check (no claim
depends on URL parsing details). -/
def isValidHttpUrl (s : String) : Bool :=
  s.startsWith "http://" || s.startsWith "https://"

/-- The `VideoJob(...)` construction in `create_job`: defaulting via Python
`or` for voice and aspect ratio, `True if ... is None else ...` for the
switches, `bool(...)` for the autopost flags, `status="queued"`, pydantic
defaults for the untouched output fields; pydantic raises a validation error
when a `Literal` or URL field is out of range. -/
def mkVideoJob (p : CreateJobRequest) : Except Exc VideoJob :=
  let voice := pyOr p.voice "female-soft"
  let ratio := pyOr p.aspect_ratio "9:16"
  let urlOk := match p.reddit_post_url with
    | none => true
    | some u => isValidHttpUrl u
  if voices.contains voice && aspectRatios.contains ratio && urlOk then
    Except.ok ⟨p.title, p.subreddit, p.reddit_post_url, p.keyword, voice, ratio,
      p.include_captions.getD true, p.include_broll.getD true,
      p.autopost_youtube.getD false, p.autopost_tiktok.getD false,
      p.autopost_instagram.getD false, "queued", none, none, []⟩
  else
    Except.error (Exc.other "validation error for VideoJob")

/-- A job record as returned over the wire: the internal `_id` renamed to
`id`, alongside the rest of the document. -/
structure JobOut where
  id : String
  doc : VideoJob
deriving DecidableEq

/-- An account record as returned over the wire: `_id` renamed to `id`. -/
structure AccountOut where
  id : String
  platform : String
  account_name : String
  connected : Bool
deriving DecidableEq

/-- Body of `GET /jobs`: query up to 100 job records and rename `_id` to
`id` on each. -/
def list_jobs_handler (d : Option DB) : Except Exc (List JobOut) :=
  match d with
  | none => Except.error (Exc.other "Database not available")
  | some s => Except.ok ((get_documents_videojob s 100).map (fun kv => ⟨kv.1, kv.2⟩))

/-- `GET /jobs`. -/
def list_jobs (d : Option DB) : Except (Nat × String) (List JobOut) :=
  handlerBoundary (list_jobs_handler d)

/-- Body of `GET /accounts`: query up to 50 account records and rename
`_id` to `id` on each. -/
def list_accounts_handler (d : Option DB) : Except Exc (List AccountOut) :=
  match d with
  | none => Except.error (Exc.other "Database not available")
  | some s => Except.ok ((get_documents_account s 50).map (fun a => ⟨a.oid, a.platform, a.account_name, a.connected⟩))

/-- `GET /accounts`. -/
def list_accounts (d : Option DB) : Except (Nat × String) (List AccountOut) :=
  handlerBoundary (list_accounts_handler d)

/-- Body of `POST /jobs`: validate the payload into a `VideoJob`, insert it
(the store supplies the fresh identifier `newId`), answer `{id, status}`. -/
def create_job_handler (p : CreateJobRequest) (newId : String) (d : Option DB) :
    Except Exc (String × String) × Option DB :=
  match mkVideoJob p with
  | Except.error e => (Except.error e, d)
  | Except.ok job =>
    match d with
    | none => (Except.error (Exc.other "Database not available"), none)
    | some s =>
      let r := create_document_videojob s job newId
      (Except.ok (r.1, job.status), some r.2)

/-- `POST /jobs`. -/
def create_job (p : CreateJobRequest) (newId : String) (d : Option DB) :
    Except (Nat × String) (String × String) × Option DB :=
  let r := create_job_handler p newId d
  (handlerBoundary r.1, r.2)

/-- The fixed placeholder video URL of `process_job`. -/
def sampleUrl : String := "https://samplelib.com/lib/preview/mp4/sample-5s.mp4"

/-- The `platforms_posted` list built by `process_job`: appended in the
fixed program order youtube, tiktok, instagram, keeping exactly the
platforms whose autopost flag is set on the stored job. -/
def platformsFor (job : VideoJob) : List String :=
  (if job.autopost_youtube then ["youtube"] else []) ++
  (if job.autopost_tiktok then ["tiktok"] else []) ++
  (if job.autopost_instagram then ["instagram"] else [])

/-- The second `$set` of `process_job`: mark completed, record the sample
URL and the posted platforms. -/
def completeJob (platforms : List String) (j : VideoJob) : VideoJob :=
  { j with status := "completed", result_video_url := some sampleUrl,
           platforms_posted := platforms }

/-- Body of `POST /jobs/{job_id}/process`: check the store handle, parse the
id (`ObjectId` normalises hex to lowercase; parse failure is a non-HTTP
exception), 404 on a missing job, write `processing` then `completed` with
the mock results, re-read and return the updated record with `_id` renamed
to `id`.  The second component is the store state when the handler finishes
or raises. -/
def process_job_handler (job_id : String) (d : Option DB) : Except Exc JobOut × Option DB :=
  match d with
  | none => (Except.error (Exc.http 500 "Database not available"), none)
  | some s =>
    if isValidObjectId job_id then
      let oid := pyLower job_id
      match findJob s.videojob oid with
      | none => (Except.error (Exc.http 404 "Job not found"), some s)
      | some job =>
        let s1 : DB := { s with videojob := updateFirstJob s.videojob oid (fun j => { j with status := "processing" }) }
        let platforms := platformsFor job
        let s2 : DB := { s1 with videojob := updateFirstJob s1.videojob oid (completeJob platforms) }
        match findJob s2.videojob oid with
        | some updated => (Except.ok ⟨oid, updated⟩, some s2)
        | none => (Except.error (Exc.other "NoneType can not be converted to a dict"), some s2)
    else
      (Except.error (Exc.other (invalidObjectIdMsg job_id)), some s)

/-- `POST /jobs/{job_id}/process`. -/
def process_job (job_id : String) (d : Option DB) :
    Except (Nat × String) JobOut × Option DB :=
  let r := process_job_handler job_id d
  (handlerBoundary r.1, r.2)

/-- The platforms accepted by `connect_account` (and the fixed order in
which `process_job` reports them). -/
def platforms3 : List String := ["youtube", "tiktok", "instagram"]

/-- Body of `POST /accounts/connect`: check the store handle, lowercase the
platform, 400 when it is not one of the three known platforms, upsert the
account document keyed on the platform (display name defaulting to the
title-cased platform), re-read and return it with `_id` renamed to `id`. -/
def connect_account_handler (p : ConnectAccountRequest) (freshId : String) (d : Option DB) :
    Except Exc AccountOut × Option DB :=
  match d with
  | none => (Except.error (Exc.http 500 "Database not available"), none)
  | some s =>
    let platform := pyLower p.platform
    if platforms3.contains platform then
      let name := pyOr p.account_name (pyTitle platform)
      let s2 : DB := { s with account := upsertAccount s.account platform name freshId }
      match findAccount s2.account platform with
      | some doc => (Except.ok ⟨doc.oid, doc.platform, doc.account_name, doc.connected⟩, some s2)
      | none => (Except.error (Exc.other "NoneType can not be converted to a dict"), some s2)
    else
      (Except.error (Exc.http 400 "Invalid platform"), some s)

/-- `POST /accounts/connect`. -/
def connect_account (p : ConnectAccountRequest) (freshId : String) (d : Option DB) :
    Except (Nat × String) AccountOut × Option DB :=
  let r := connect_account_handler p freshId d
  (handlerBoundary r.1, r.2)

/-- One state-changing API call (the read-only endpoints do not move the
store). -/
inductive Op where
  | create (p : CreateJobRequest) (newId : String)
  | process (job_id : String)
  | connect (p : ConnectAccountRequest) (freshId : String)

/-- The store state after one call, starting from an available store. -/
def applyOp (s : DB) : Op → DB
  | Op.create p newId => ((create_job_handler p newId (some s)).2).getD s
  | Op.process jid => ((process_job_handler jid (some s)).2).getD s
  | Op.connect p freshId => ((connect_account_handler p freshId (some s)).2).getD s

/-- The store state reached by a sequence of API calls from the empty
store. -/
def runOps (ops : List Op) : DB := ops.foldl applyOp emptyDB

/-- The job-record health predicate of the spec: `error` never set, `status`
never `failed` and never left at `processing`. -/
def jobOk (kv : String × VideoJob) : Bool :=
  kv.2.error == none && kv.2.status != "failed" && kv.2.status != "processing"

/-- Every stored job record is healthy. -/
def jobInvariantB (s : DB) : Bool := s.videojob.all jobOk

/-- At most one account document per platform. -/
def uniquePlatforms (l : List AccountDoc) : Prop :=
  (l.map AccountDoc.platform).Nodup

/-- The autopost flag of a job for a given platform name. -/
def autopostFlag (j : VideoJob) (q : String) : Bool :=
  if q = "youtube" then j.autopost_youtube
  else if q = "tiktok" then j.autopost_tiktok
  else if q = "instagram" then j.autopost_instagram
  else false

/-- The job record stored by `create_job` on an empty payload. -/
def defaultQueuedJob : VideoJob :=
  ⟨none, none, none, none, "female-soft", "9:16", true, true, false, false, false,
    "queued", none, none, []⟩

/-! ### Helper lemmas about the keyed-list store operations -/

lemma findJob_updateFirstJob (l : List (String × VideoJob)) (k : String) (f : VideoJob → VideoJob) :
    findJob (updateFirstJob l k f) k = (findJob l k).map f := by
  induction l with
  | nil => rfl
  | cons kv rest ih =>
    by_cases h : kv.1 = k
    · simp [findJob, updateFirstJob, h]
    · simp [findJob, updateFirstJob, h, ih]

lemma updateFirstJob_comp (l : List (String × VideoJob)) (k : String)
    (f g : VideoJob → VideoJob) :
    updateFirstJob (updateFirstJob l k f) k g = updateFirstJob l k (fun j => g (f j)) := by
  induction l with
  | nil => rfl
  | cons kv rest ih =>
    by_cases h : kv.1 = k
    · simp [updateFirstJob, h]
    · simp [updateFirstJob, h, ih]

lemma updateFirstJob_all (p : String × VideoJob → Bool) (l : List (String × VideoJob))
    (k : String) (f : VideoJob → VideoJob)
    (hf : ∀ kv : String × VideoJob, p kv = true → p (kv.1, f kv.2) = true) :
    l.all p = true → (updateFirstJob l k f).all p = true := by
  induction l with
  | nil => intro h; exact h
  | cons kv rest ih =>
    intro h
    rw [List.all_cons, Bool.and_eq_true] at h
    by_cases hk : kv.1 = k
    · simp only [updateFirstJob, if_pos hk, List.all_cons, Bool.and_eq_true]
      exact ⟨hf kv h.1, h.2⟩
    · simp only [updateFirstJob, if_neg hk, List.all_cons, Bool.and_eq_true]
      exact ⟨h.1, ih h.2⟩

/-- A successful `process_job` call can only come from a found job, and its
answer is that job with the completed-state fields set. -/
lemma process_job_ok_inv (s : DB) (jid : String) (r : JobOut)
    (h : (process_job jid (some s)).1 = Except.ok r) :
    ∃ job, findJob s.videojob (pyLower jid) = some job ∧
      r = ⟨pyLower jid, completeJob (platformsFor job) job⟩ := by
  simp only [process_job, process_job_handler] at h
  cases hv : isValidObjectId jid with
  | false =>
    rw [if_neg (by simp [hv])] at h
    simp [handlerBoundary] at h
  | true =>
    rw [if_pos hv] at h
    split at h
    · simp [handlerBoundary] at h
    · rename_i job hfind
      split at h
      · rename_i updated hupd
        rw [updateFirstJob_comp, findJob_updateFirstJob, hfind] at hupd
        simp only [Option.map] at hupd
        injection hupd with hupd2
        subst hupd2
        simp only [handlerBoundary, Except.ok.injEq] at h
        exact ⟨job, hfind, h.symm⟩
      · simp [handlerBoundary] at h

lemma platformsFor_eq_filter (j : VideoJob) :
    platformsFor j = platforms3.filter (autopostFlag j) := by
  rcases j with ⟨t, sb, ru, kw, vo, ar, ic, ib, ay, atk, ain, st, er, rv, pp⟩
  cases ay <;> cases atk <;> cases ain <;> rfl

lemma completeJob_flags (P : List String) (j : VideoJob) :
    autopostFlag (completeJob P j) = autopostFlag j := rfl

/-! ### Claim theorems -/

/-- C2: `POST /jobs` with an empty payload stores a job with
`voice="female-soft"`, `aspect_ratio="9:16"`, captions and b-roll on, all
autopost flags off and `status="queued"`, and answers `{id, status:"queued"}`. -/
theorem create_job_defaults (s : DB) (newId : String) :
    create_job emptyCreateJobRequest newId (some s) =
      (Except.ok (newId, "queued"),
       some { s with videojob := s.videojob ++ [(newId, defaultQueuedJob)] }) := rfl

/-- C7: `GET /jobs` returns exactly the first 100 stored job records and
`GET /accounts` the first 50 account records, each reshaped into a wire
record whose identifier field is `id` (the internal `_id` is dropped by
construction of `JobOut`/`AccountOut`), so the answers have at most 100
resp. 50 items. -/
theorem list_limits_and_id (s : DB) :
    list_jobs (some s) =
      Except.ok ((s.videojob.take 100).map (fun kv => ⟨kv.1, kv.2⟩)) ∧
    ((s.videojob.take 100).map (fun kv => (⟨kv.1, kv.2⟩ : JobOut))).length ≤ 100 ∧
    list_accounts (some s) =
      Except.ok ((s.account.take 50).map (fun a => ⟨a.oid, a.platform, a.account_name, a.connected⟩)) ∧
    ((s.account.take 50).map (fun a => (⟨a.oid, a.platform, a.account_name, a.connected⟩ : AccountOut))).length ≤ 50 := by
  refine ⟨rfl, ?_, rfl, ?_⟩
  · rw [List.length_map]
    exact le_trans (List.length_take_le 100 s.videojob) (le_refl 100)
  · rw [List.length_map]
    exact le_trans (List.length_take_le 50 s.account) (le_refl 50)

/-- C8: every endpoint is its body wrapped in the one exception boundary,
which turns a non-HTTP exception into a 500 carrying the exception's string
form, passes a deliberate `HTTPException` through unchanged, and never turns
an error into a success. -/
theorem endpoint_error_boundary :
    (∀ m : String, excToResp (Exc.other m) = (500, m)) ∧
    (∀ (st : Nat) (dt : String), excToResp (Exc.http st dt) = (st, dt)) ∧
    (∀ e : Exc, handlerBoundary (Except.error e : Except Exc JobOut) = Except.error (excToResp e)) ∧
    (∀ (jid : String) (d : Option DB),
      (process_job jid d).1 = handlerBoundary (process_job_handler jid d).1) ∧
    (∀ (p : ConnectAccountRequest) (i : String) (d : Option DB),
      (connect_account p i d).1 = handlerBoundary (connect_account_handler p i d).1) ∧
    (∀ (p : CreateJobRequest) (i : String) (d : Option DB),
      (create_job p i d).1 = handlerBoundary (create_job_handler p i d).1) ∧
    (∀ d : Option DB, list_jobs d = handlerBoundary (list_jobs_handler d)) ∧
    (∀ d : Option DB, list_accounts d = handlerBoundary (list_accounts_handler d)) :=
  ⟨fun _ => rfl, fun _ _ => rfl, fun _ => rfl, fun _ _ => rfl, fun _ _ _ => rfl,
   fun _ _ _ => rfl, fun _ => rfl, fun _ => rfl⟩

/-- C3 counterexample: `"zzz"` names no stored job, yet
`POST /jobs/zzz/process` answers 500 (the `ObjectId` parse failure is a
plain exception caught by the boundary), not 404. -/
theorem process_invalid_id_is_500 :
    findJob emptyDB.videojob (pyLower "zzz") = none ∧
    (process_job "zzz" (some emptyDB)).1 = Except.error (500, invalidObjectIdMsg "zzz") ∧
    (process_job "zzz" (some emptyDB)).1 ≠ Except.error (404, "Job not found") := by
  refine ⟨rfl, rfl, ?_⟩
  intro h
  rw [show (process_job "zzz" (some emptyDB)).1 = Except.error (500, invalidObjectIdMsg "zzz") from rfl] at h
  simp only [Except.error.injEq, Prod.mk.injEq] at h
  exact absurd h.1 (by decide)

/-- C3 amended: a `job_id` that is a well-formed `ObjectId` string (24 hex
characters) but names no stored job gets a 404; a malformed `job_id` instead
makes `ObjectId(job_id)` raise, which the boundary surfaces as a 500. -/
theorem process_unknown_valid_id_404 (s : DB) (jid : String)
    (hv : isValidObjectId jid = true)
    (hf : findJob s.videojob (pyLower jid) = none) :
    (process_job jid (some s)).1 = Except.error (404, "Job not found") := by
  simp only [process_job, process_job_handler, if_pos hv, hf]
  rfl

/-- Witness for the amended C3 at a concrete well-formed, unknown id. -/
theorem process_unknown_valid_id_404_witness :
    isValidObjectId "0123456789abcdef01234567" = true ∧
    (process_job "0123456789abcdef01234567" (some emptyDB)).1 =
      Except.error (404, "Job not found") :=
  ⟨by decide, process_unknown_valid_id_404 emptyDB "0123456789abcdef01234567" (by decide) rfl⟩

/-! ### Concrete witness data -/

def wOid : String := "0123456789abcdef01234567"

def wJob : VideoJob :=
  ⟨none, none, none, none, "female-soft", "9:16", true, true, true, false, true,
    "queued", none, none, []⟩

def wStore : DB := ⟨[(wOid, wJob)], []⟩

def wRes : JobOut := ⟨wOid, completeJob (platformsFor wJob) wJob⟩

def wOps : List Op := [Op.create emptyCreateJobRequest wOid, Op.process wOid]

/-- C1: processing an existing job answers that job marked `completed`,
carrying the fixed sample URL, with `platforms_posted` exactly the enabled
subset of the three platforms. -/
theorem process_job_completes (s : DB) (jid : String) (job : VideoJob)
    (hv : isValidObjectId jid = true)
    (hf : findJob s.videojob (pyLower jid) = some job) :
    (process_job jid (some s)).1 =
      Except.ok ⟨pyLower jid, completeJob (platformsFor job) job⟩ ∧
    (completeJob (platformsFor job) job).status = "completed" ∧
    (completeJob (platformsFor job) job).result_video_url = some sampleUrl ∧
    (∀ q : String, q ∈ (completeJob (platformsFor job) job).platforms_posted ↔
      ((q = "youtube" ∧ job.autopost_youtube = true) ∨
       (q = "tiktok" ∧ job.autopost_tiktok = true) ∨
       (q = "instagram" ∧ job.autopost_instagram = true))) := by
  refine ⟨?_, rfl, rfl, ?_⟩
  · simp only [process_job, process_job_handler, if_pos hv, updateFirstJob_comp,
      findJob_updateFirstJob, hf, Option.map, handlerBoundary]
    rfl
  · intro q
    have hpp : (completeJob (platformsFor job) job).platforms_posted = platformsFor job := rfl
    rw [hpp]
    cases hy : job.autopost_youtube <;> cases ht : job.autopost_tiktok <;>
      cases hi : job.autopost_instagram <;> simp [platformsFor, hy, ht, hi]

/-- Witness for C1 on a one-job store with youtube and instagram enabled. -/
theorem process_job_completes_witness :
    isValidObjectId wOid = true ∧
    findJob wStore.videojob (pyLower wOid) = some wJob ∧
    (process_job wOid (some wStore)).1 =
      Except.ok ⟨pyLower wOid, completeJob (platformsFor wJob) wJob⟩ :=
  ⟨by decide, rfl, (process_job_completes wStore wOid wJob (by decide) rfl).1⟩

/-- C10: the `platforms_posted` list returned by a successful process call
is the filter of the fixed order youtube, tiktok, instagram by the job's
autopost flags, hence always a sublist of that fixed order. -/
theorem platforms_posted_order (s : DB) (jid : String) (r : JobOut)
    (h : (process_job jid (some s)).1 = Except.ok r) :
    r.doc.platforms_posted = platforms3.filter (autopostFlag r.doc) ∧
    r.doc.platforms_posted.Sublist platforms3 := by
  obtain ⟨job, hfind, hr⟩ := process_job_ok_inv s jid r h
  subst hr
  constructor
  · show platformsFor job = platforms3.filter (autopostFlag (completeJob (platformsFor job) job))
    rw [completeJob_flags]
    exact platformsFor_eq_filter job
  · show (platformsFor job).Sublist platforms3
    rw [platformsFor_eq_filter]
    exact List.filter_sublist platforms3

/-- Witness for C10 on the one-job store. -/
theorem platforms_posted_order_witness :
    wRes.doc.platforms_posted = platforms3.filter (autopostFlag wRes.doc) ∧
    wRes.doc.platforms_posted.Sublist platforms3 :=
  platforms_posted_order wStore wOid wRes rfl

/-! ### Reachable-state invariant for C5 -/

lemma mkVideoJob_ok (p : CreateJobRequest) (job : VideoJob)
    (h : mkVideoJob p = Except.ok job) : job.status = "queued" ∧ job.error = none := by
  simp only [mkVideoJob] at h
  split at h
  · injection h with h2
    subst h2
    exact ⟨rfl, rfl⟩
  · cases h

lemma jobOk_complete (P : List String) :
    ∀ kv : String × VideoJob, jobOk kv = true →
      jobOk (kv.1, completeJob P { kv.2 with status := "processing" }) = true := by
  intro kv h
  simp only [jobOk, completeJob, Bool.and_eq_true] at h ⊢
  exact ⟨⟨h.1.1, by decide⟩, by decide⟩

lemma applyOp_jobInvariant (s : DB) (op : Op) (h : jobInvariantB s = true) :
    jobInvariantB (applyOp s op) = true := by
  cases op with
  | create p newId =>
    cases hmk : mkVideoJob p with
    | error e => simp only [applyOp, create_job_handler, hmk, Option.getD]; exact h
    | ok job =>
      obtain ⟨hst, herr⟩ := mkVideoJob_ok p job hmk
      simp only [applyOp, create_job_handler, hmk, create_document_videojob, Option.getD]
      simp only [jobInvariantB, List.all_append, Bool.and_eq_true] at h ⊢
      refine ⟨h, ?_⟩
      simp [jobOk, hst, herr]
  | process jid =>
    simp only [applyOp, process_job_handler]
    cases hv : isValidObjectId jid with
    | false =>
      rw [if_neg (by decide : ¬ false = true)]
      exact h
    | true =>
      rw [if_pos (rfl : true = true)]
      split
      · exact h
      · rename_i job hfind
        split
        all_goals
          rw [updateFirstJob_comp]
          simp only [jobInvariantB] at h ⊢
          exact updateFirstJob_all jobOk s.videojob (pyLower jid) _
            (jobOk_complete (platformsFor job)) h
  | connect p freshId =>
    simp only [applyOp, connect_account_handler]
    split
    · split
      · exact h
      · exact h
    · exact h

lemma foldl_applyOp_invariant (ops : List Op) :
    ∀ s : DB, jobInvariantB s = true → jobInvariantB (ops.foldl applyOp s) = true := by
  induction ops with
  | nil => intro s h; exact h
  | cons op rest ih => intro s h; exact ih (applyOp s op) (applyOp_jobInvariant s op h)

/-- C5: in every store state reachable through the API from the empty store,
no job record has its `error` field set, none is `failed`, and none is left
at `processing` once the call completes; moreover every successful process
call reports status `completed`. -/
theorem no_failed_no_error (ops : List Op) :
    jobInvariantB (runOps ops) = true ∧
    ∀ (jid : String) (s : DB) (r : JobOut),
      (process_job jid (some s)).1 = Except.ok r → r.doc.status = "completed" := by
  constructor
  · exact foldl_applyOp_invariant ops emptyDB rfl
  · intro jid s r h
    obtain ⟨job, _, hr⟩ := process_job_ok_inv s jid r h
    subst hr
    rfl

/-- Witness for C5 on a create-then-process run. -/
theorem no_failed_no_error_witness :
    jobInvariantB (runOps wOps) = true ∧ wRes.doc.status = "completed" :=
  ⟨(no_failed_no_error wOps).1, (no_failed_no_error []).2 wOid wStore wRes rfl⟩

/-! ### Account upsert lemmas -/

lemma mem_upsertAccount_platforms (l : List AccountDoc) (p n i q : String)
    (h : q ∈ (upsertAccount l p n i).map AccountDoc.platform) :
    q ∈ l.map AccountDoc.platform ∨ q = p := by
  induction l with
  | nil =>
    simp only [upsertAccount, List.map_cons, List.map_nil, List.mem_singleton] at h
    exact Or.inr h
  | cons a rest ih =>
    by_cases hp : a.platform = p
    · simp only [upsertAccount, if_pos hp, List.map_cons, List.mem_cons] at h
      rcases h with h | h
      · exact Or.inr h
      · exact Or.inl (List.mem_cons_of_mem _ h)
    · simp only [upsertAccount, if_neg hp, List.map_cons, List.mem_cons] at h
      rcases h with h | h
      · exact Or.inl (by rw [List.map_cons, List.mem_cons]; exact Or.inl h)
      · rcases ih h with h2 | h2
        · exact Or.inl (List.mem_cons_of_mem _ h2)
        · exact Or.inr h2

lemma uniquePlatforms_upsert (l : List AccountDoc) (p n i : String)
    (h : uniquePlatforms l) : uniquePlatforms (upsertAccount l p n i) := by
  induction l with
  | nil => simp [uniquePlatforms, upsertAccount]
  | cons a rest ih =>
    simp only [uniquePlatforms, List.map_cons, List.nodup_cons] at h
    by_cases hp : a.platform = p
    · simp only [uniquePlatforms, upsertAccount, if_pos hp, List.map_cons, List.nodup_cons]
      exact ⟨by rw [← hp]; exact h.1, h.2⟩
    · simp only [uniquePlatforms, upsertAccount, if_neg hp, List.map_cons, List.nodup_cons]
      refine ⟨?_, ih h.2⟩
      intro hmem
      rcases mem_upsertAccount_platforms rest p n i a.platform hmem with h2 | h2
      · exact h.1 h2
      · exact hp h2

lemma findAccount_upsertAccount (l : List AccountDoc) (p n i : String) :
    ∃ d, findAccount (upsertAccount l p n i) p = some d ∧
      d.platform = p ∧ d.account_name = n ∧ d.connected = true := by
  induction l with
  | nil => exact ⟨⟨i, p, n, true⟩, by simp [upsertAccount, findAccount], rfl, rfl, rfl⟩
  | cons a rest ih =>
    by_cases hp : a.platform = p
    · exact ⟨⟨a.oid, p, n, true⟩, by simp [upsertAccount, if_pos hp, findAccount], rfl, rfl, rfl⟩
    · obtain ⟨d, hd, h1, h2, h3⟩ := ih
      exact ⟨d, by simp [upsertAccount, if_neg hp, findAccount, hp, hd], h1, h2, h3⟩

lemma count_platform_le_one (l : List AccountDoc) (p : String)
    (h : uniquePlatforms l) :
    (l.filter (fun a => a.platform == p)).length ≤ 1 := by
  induction l with
  | nil => simp
  | cons a rest ih =>
    simp only [uniquePlatforms, List.map_cons, List.nodup_cons] at h
    by_cases hp : a.platform = p
    · have hrest : rest.filter (fun a => a.platform == p) = [] := by
        refine List.filter_eq_nil_iff.mpr ?_
        intro b hb
        simp only [beq_iff_eq]
        intro hbp
        exact h.1 (by rw [hp, ← hbp]; exact List.mem_map_of_mem AccountDoc.platform hb)
      have hb : (a.platform == p) = true := by simp [hp]
      simp [List.filter_cons, hb, hrest]
    · have hb : (a.platform == p) = false := by simp [hp]
      simp only [List.filter_cons, hb, Bool.false_eq_true, if_false]
      exact ih h.2

lemma count_platform_pos (l : List AccountDoc) (p : String) (d : AccountDoc)
    (h : findAccount l p = some d) :
    0 < (l.filter (fun a => a.platform == p)).length := by
  induction l with
  | nil => cases h
  | cons a rest ih =>
    by_cases hp : a.platform = p
    · have hb : (a.platform == p) = true := by simp [hp]
      simp [List.filter_cons, hb]
    · have hb : (a.platform == p) = false := by simp [hp]
      simp only [findAccount, if_neg hp] at h
      simp only [List.filter_cons, hb, Bool.false_eq_true, if_false]
      exact ih h

/-- The store state a valid connect call leaves behind: the upserted
account collection (both the found and the impossible not-found branch of
the re-read return the same state). -/
lemma connect_account_state (p : ConnectAccountRequest) (i : String) (s : DB)
    (h : platforms3.contains (pyLower p.platform) = true) :
    (connect_account p i (some s)).2 =
      some { s with account := upsertAccount s.account (pyLower p.platform)
                      (pyOr p.account_name (pyTitle (pyLower p.platform))) i } := by
  simp only [connect_account, connect_account_handler, if_pos h]
  split <;> rfl

lemma applyOp_uniquePlatforms (s : DB) (op : Op) (h : uniquePlatforms s.account) :
    uniquePlatforms (applyOp s op).account := by
  cases op with
  | create p newId =>
    cases hmk : mkVideoJob p with
    | error e => simpa [applyOp, create_job_handler, hmk] using h
    | ok job => simpa [applyOp, create_job_handler, hmk, create_document_videojob] using h
  | process jid =>
    simp only [applyOp, process_job_handler]
    cases hv : isValidObjectId jid with
    | false =>
      rw [if_neg (by decide : ¬ false = true)]
      exact h
    | true =>
      rw [if_pos (rfl : true = true)]
      split
      · exact h
      · split
        · exact h
        · exact h
  | connect p freshId =>
    simp only [applyOp, connect_account_handler]
    by_cases hc : platforms3.contains (pyLower p.platform) = true
    · rw [if_pos hc]
      split
      · exact uniquePlatforms_upsert _ _ _ _ h
      · exact uniquePlatforms_upsert _ _ _ _ h
    · rw [if_neg hc]
      exact h

lemma foldl_applyOp_unique (ops : List Op) :
    ∀ s : DB, uniquePlatforms s.account → uniquePlatforms ((ops.foldl applyOp s).account) := by
  induction ops with
  | nil => intro s h; exact h
  | cons op rest ih => intro s h; exact ih (applyOp s op) (applyOp_uniquePlatforms s op h)

/-- C4: every store state reachable through the API keeps at most one
account document per platform, and two successive connect calls with the
same platform leave a single document for it, the second call's
`account_name` (when provided and non-empty) overwriting the first. -/
theorem connect_upsert_unique :
    (∀ ops : List Op, uniquePlatforms ((runOps ops).account)) ∧
    (∀ (s : DB) (pl i1 i2 nm : String) (n1 : Option String) (s2 : DB),
      uniquePlatforms s.account →
      platforms3.contains (pyLower pl) = true →
      nm ≠ "" →
      (connect_account ⟨pl, some nm⟩ i2 ((connect_account ⟨pl, n1⟩ i1 (some s)).2)).2 = some s2 →
      (s2.account.filter (fun a => a.platform == pyLower pl)).length = 1 ∧
      (findAccount s2.account (pyLower pl)).map AccountDoc.account_name = some nm) := by
  constructor
  · intro ops
    exact foldl_applyOp_unique ops emptyDB (by simp [uniquePlatforms, emptyDB])
  · intro s pl i1 i2 nm n1 s2 hu hc hnm h2
    rw [connect_account_state ⟨pl, n1⟩ i1 s hc] at h2
    rw [connect_account_state ⟨pl, some nm⟩ i2 _ hc] at h2
    have hOr : pyOr (some nm) (pyTitle (pyLower pl)) = nm := by
      simp only [pyOr]
      rw [if_neg hnm]
    rw [hOr] at h2
    injection h2 with h2
    subst h2
    dsimp only
    have hu1 : uniquePlatforms (upsertAccount s.account (pyLower pl)
        (pyOr n1 (pyTitle (pyLower pl))) i1) :=
      uniquePlatforms_upsert _ _ _ _ hu
    obtain ⟨d, hd, hdp, hdn, hdc⟩ :=
      findAccount_upsertAccount (upsertAccount s.account (pyLower pl)
        (pyOr n1 (pyTitle (pyLower pl))) i1) (pyLower pl) nm i2
    constructor
    · exact Nat.le_antisymm
        (count_platform_le_one _ _ (uniquePlatforms_upsert _ _ _ _ hu1))
        (count_platform_pos _ _ d hd)
    · simp [hd, hdn]

/-- Witness for C4: two connects for youtube, the second named "Alice". -/
theorem connect_upsert_unique_witness :
    uniquePlatforms ((runOps []).account) ∧
    ((⟨[], [⟨"a1", "youtube", "Alice", true⟩]⟩ : DB).account.filter
        (fun a => a.platform == pyLower "youtube")).length = 1 ∧
    (findAccount (⟨[], [⟨"a1", "youtube", "Alice", true⟩]⟩ : DB).account
        (pyLower "youtube")).map AccountDoc.account_name = some "Alice" :=
  ⟨connect_upsert_unique.1 [],
   connect_upsert_unique.2 emptyDB "youtube" "a1" "a2" "Alice" (some "Bob")
     ⟨[], [⟨"a1", "youtube", "Alice", true⟩]⟩
     (by simp [uniquePlatforms, emptyDB]) (by decide) (by decide) rfl⟩

/-- C6: `POST /accounts/connect` rejects any platform not in
{youtube, tiktok, instagram} with a 400 (in particular `"twitter"`), and on
success upserts a document with `connected = true` whose display name
defaults to the title-cased platform when none is given. -/
theorem connect_account_validation :
    (∀ (n : Option String) (i : String) (s : DB),
      (connect_account ⟨"twitter", n⟩ i (some s)).1 = Except.error (400, "Invalid platform")) ∧
    (∀ (p : ConnectAccountRequest) (i : String) (s : DB),
      platforms3.contains (pyLower p.platform) = false →
      (connect_account p i (some s)).1 = Except.error (400, "Invalid platform")) ∧
    (∀ (pl i : String) (s : DB),
      platforms3.contains (pyLower pl) = true →
      ∃ s2 d, (connect_account ⟨pl, none⟩ i (some s)).2 = some s2 ∧
        findAccount s2.account (pyLower pl) = some d ∧
        d.connected = true ∧ d.account_name = pyTitle (pyLower pl)) := by
  refine ⟨fun n i s => rfl, ?_, ?_⟩
  · intro p i s hc
    have hcn : ¬ (platforms3.contains (pyLower p.platform) = true) := by
      rw [hc]
      decide
    simp only [connect_account, connect_account_handler, if_neg hcn]
    rfl
  · intro pl i s hc
    obtain ⟨d, hd, hdp, hdn, hdc⟩ :=
      findAccount_upsertAccount s.account (pyLower pl) (pyOr none (pyTitle (pyLower pl))) i
    exact ⟨_, d, connect_account_state ⟨pl, none⟩ i s hc, hd, hdc, hdn.trans rfl⟩

/-- Witness for C6: "TWITTER" is rejected, "tiktok" succeeds with the
default display name. -/
theorem connect_account_validation_witness :
    (connect_account ⟨"TWITTER", none⟩ "b1" (some emptyDB)).1 =
      Except.error (400, "Invalid platform") ∧
    (∃ s2 d, (connect_account ⟨"tiktok", none⟩ "b1" (some emptyDB)).2 = some s2 ∧
      findAccount s2.account (pyLower "tiktok") = some d ∧
      d.connected = true ∧ d.account_name = pyTitle (pyLower "tiktok")) :=
  ⟨connect_account_validation.2.1 ⟨"TWITTER", none⟩ "b1" emptyDB (by decide),
   connect_account_validation.2.2 "tiktok" "b1" emptyDB (by decide)⟩

/-- C9: the platform string is lowercased before validation and storage:
any spelling whose lowercase form is a known platform succeeds, the answer
and the stored document both carry the lowercase form; in particular
`"YouTube"` lowercases to `"youtube"`. -/
theorem connect_account_lowercases :
    (∀ (pl i : String) (n : Option String) (s : DB),
      platforms3.contains (pyLower pl) = true →
      (∃ out, (connect_account ⟨pl, n⟩ i (some s)).1 = Except.ok out ∧
        out.platform = pyLower pl) ∧
      (∃ s2 d, (connect_account ⟨pl, n⟩ i (some s)).2 = some s2 ∧
        findAccount s2.account (pyLower pl) = some d ∧ d.platform = pyLower pl)) ∧
    pyLower "YouTube" = "youtube" := by
  constructor
  · intro pl i n s hc
    obtain ⟨d, hd, hdp, hdn, hdc⟩ :=
      findAccount_upsertAccount s.account (pyLower pl) (pyOr n (pyTitle (pyLower pl))) i
    constructor
    · refine ⟨⟨d.oid, d.platform, d.account_name, d.connected⟩, ?_, hdp⟩
      simp only [connect_account, connect_account_handler, if_pos hc, hd, handlerBoundary]
    · exact ⟨_, d, connect_account_state ⟨pl, n⟩ i s hc, hd, hdp⟩
  · rfl

/-- Witness for C9 at the mixed-case spelling "YouTube". -/
theorem connect_account_lowercases_witness :
    ∃ out, (connect_account ⟨"YouTube", none⟩ "c1" (some emptyDB)).1 = Except.ok out ∧
      out.platform = pyLower "YouTube" :=
  (connect_account_lowercases.1 "YouTube" "c1" none emptyDB (by decide)).1

end ShortsBackend
